import Mathlib

/-!
Verification of the listing lifecycle and expiry subsystem of the
healthy-home-exchange API.

The development is a shallow embedding of the JavaScript source:

* Times are integer milliseconds since the Unix epoch (`Date.now()`); the
  source computes every horizon as `now + k * 24 * 60 * 60 * 1000`.
* The document store is a `List Listing`; store filters (`$lt`, `$gte`,
  `$regex`, `$or`), `sort`/`skip`/`limit` and `deleteMany` become list
  operations on it.
* Fallible operations return `Except`; an HTTP 400 "Invalid listing ID"
  is `ApiError.invalidId`, 404 is `ApiError.notFound`, and a generic 500
  produced by a `catch` block is `ApiError.serverError`.
* Payload fields the core never interprets (price, bedrooms, notes, ...)
  are not part of `Listing`; the fields used by search, notification and
  the temporal logic are kept.
-/

/-- One day in milliseconds (`24 * 60 * 60 * 1000` in the source). -/
def dayMs : Int := 24 * 60 * 60 * 1000

/-- Sixty days in milliseconds (`60 * 24 * 60 * 60 * 1000` in the source,
used by the schema default, renewal, and the cleanup script). -/
def sixtyDaysMs : Int := 60 * dayMs

/-- A persisted listing document (`models/listing.js`).  Only the fields the
lifecycle core interprets are modelled; the remaining schema fields are
opaque payload. -/
structure Listing where
  id : String
  name : String
  email : String
  address : String
  location : String
  keywords : List String
  createdAt : Int
  expirationDate : Int
deriving DecidableEq, Repr

/-- A JSON-ish value of a request-body field, as far as the claims need:
strings, numbers (dates are their millisecond value) and string arrays. -/
inductive JVal where
  | jstr (s : String)
  | jnum (n : Int)
  | jarr (xs : List String)
deriving DecidableEq, Repr

/-- A raw request body: an association list of field name to value. -/
abbrev Body := List (String × JVal)

/-- Look a field up in a body (first occurrence, like a JS object key). -/
def getField (body : Body) (k : String) : Option JVal :=
  (body.find? (fun kv => kv.fst == k)).map Prod.snd

/-- The keys declared by `createListingSchema` in `utils/validation.js`.
Note `createdAt` and `expirationDate` are NOT among them. -/
def createListingSchemaKeys : List String :=
  ["name", "email", "address", "price", "location", "size", "lotArea",
   "bedrooms", "bathrooms", "yearBuilt", "taxes", "floodZone", "otherFees",
   "mlsLink", "locationDesign", "foundation", "roof", "envelope",
   "interiorMaterials", "mechanicals", "finishes", "greenFeatures", "notes",
   "healthyCriteria", "keywords", "comment"]

/-- `stripUnknown: true` of the Joi validation: drop every key that the
creation schema does not declare. -/
def stripUnknown (body : Body) : Body :=
  body.filter (fun kv => createListingSchemaKeys.contains kv.fst)

/-- The required-field checks of `createListingSchema`: `name` a 1..200
character string, `email` a string in email shape (modelled as containing
an `@`).  The per-field bound checks of the optional fields are
abstracted to acceptance: they can only reject a body, never add or
rename keys, so every theorem below that assumes successful validation
also covers the stricter real validator. -/
def requiredOk (body : Body) : Bool :=
  (match getField body "name" with
   | some (JVal.jstr s) => decide (1 ≤ s.length) && decide (s.length ≤ 200)
   | _ => false)
  &&
  (match getField body "email" with
   | some (JVal.jstr s) => s.data.contains '@'
   | _ => false)

/-- The `validate(createListingSchema)` middleware (`utils/validation.js`):
validates the body with `stripUnknown: true` and either rejects with a
field-error response or passes the sanitized body on. -/
def validateCreate (body : Body) : Except String Body :=
  let v := stripUnknown body
  if requiredOk v then Except.ok v else Except.error "Validation failed"

/-- `Listing.create(body)` under the mongoose schema (`models/listing.js`):
fields come from the document; `createdAt` defaults to `Date.now` and
`expirationDate` to `Date.now() + 60 * 24 * 60 * 60 * 1000` exactly when
the document does not already carry a value for them.  `now` is the
creation instant and `newId` the store-assigned identity. -/
def mongooseCreate (now : Int) (newId : String) (body : Body) : Listing :=
  { id := newId
  , name := match getField body "name" with
      | some (JVal.jstr s) => s
      | _ => ""
  , email := match getField body "email" with
      | some (JVal.jstr s) => s
      | _ => ""
  , address := match getField body "address" with
      | some (JVal.jstr s) => s
      | _ => ""
  , location := match getField body "location" with
      | some (JVal.jstr s) => s
      | _ => ""
  , keywords := match getField body "keywords" with
      | some (JVal.jarr xs) => xs
      | _ => []
  , createdAt := match getField body "createdAt" with
      | some (JVal.jnum t) => t
      | _ => now
  , expirationDate := match getField body "expirationDate" with
      | some (JVal.jnum t) => t
      | _ => now + sixtyDaysMs }

/-- `POST /listings`: the validation middleware followed by
`addListing` (`controllers/listingController.js`), which persists
`Listing.create(req.body)` on the already-sanitized body. -/
def addListing (now : Int) (newId : String) (body : Body) :
    Except String Listing :=
  match validateCreate body with
  | Except.error e => Except.error e
  | Except.ok v => Except.ok (mongooseCreate now newId v)

/-- Typed API failures: HTTP 400 "Invalid listing ID", HTTP 404
"Listing not found", and the generic HTTP 500 a `catch` block produces. -/
inductive ApiError where
  | invalidId
  | notFound
  | serverError
deriving DecidableEq, Repr

/-- Hexadecimal digit test, as for one character of an ObjectId. -/
def isHexChar (c : Char) : Bool :=
  c.isDigit || ('a' ≤ c && c ≤ 'f') || ('A' ≤ c && c ≤ 'F')

/-- `mongoose.Types.ObjectId.isValid` on a string: a 24-character hex
string, or any 12-character string (12 bytes). -/
def isValidObjectId (s : String) : Bool :=
  (s.length == 24 && s.data.all isHexChar) || s.length == 12

/-- `GET /listings/:id` (`getListingById` in
`controllers/listingController.js`): the id-format check runs first and
short-circuits with 400; only then is the store consulted
(`Listing.findById`), yielding 404 when absent. -/
def getListingById (db : List Listing) (id : String) :
    Except ApiError Listing :=
  if isValidObjectId id then
    match db.find? (fun l => l.id == id) with
    | none => Except.error ApiError.notFound
    | some l => Except.ok l
  else Except.error ApiError.invalidId

/-- `POST /renew/:id` in the current (nodemailer) server variant: checks
`ObjectId.isValid` first (400), then `findById` (404), then sets
`expirationDate = Date.now() + 60 * 24 * 60 * 60 * 1000` and saves.
Returns the updated store and the updated record. -/
def renewListing (now : Int) (db : List Listing) (id : String) :
    Except ApiError (List Listing × Listing) :=
  if isValidObjectId id then
    match db.find? (fun l => l.id == id) with
    | none => Except.error ApiError.notFound
    | some l =>
      let l' := { l with expirationDate := now + sixtyDaysMs }
      Except.ok (db.map (fun x => if x.id == id then l' else x), l')
  else Except.error ApiError.invalidId

/-- `POST /renew/:id` in the legacy (SendGrid) server variant: no
id-format check; `findById` on a malformed id throws a cast error that
the surrounding `catch` turns into a generic 500 response. -/
def renewListingLegacy (now : Int) (db : List Listing) (id : String) :
    Except ApiError (List Listing × Listing) :=
  if isValidObjectId id then
    match db.find? (fun l => l.id == id) with
    | none => Except.error ApiError.notFound
    | some l =>
      let l' := { l with expirationDate := now + sixtyDaysMs }
      Except.ok (db.map (fun x => if x.id == id then l' else x), l')
  else Except.error ApiError.serverError

/-- The expiry sweep (`deleteExpiredListings` in the server):
`Listing.deleteMany({ expirationDate: { $lt: new Date() } })`.
Returns the surviving store and the deleted count. -/
def deleteExpiredListings (now : Int) (db : List Listing) :
    List Listing × Nat :=
  (db.filter (fun l => !decide (l.expirationDate < now)),
   (db.filter (fun l => decide (l.expirationDate < now))).length)

/-- The standalone cleanup script (`scripts/delete_old_listings.js`):
`cutoffDate = Date.now() - 60 days`;
`Listing.deleteMany({ createdAt: { $lt: cutoffDate } })`. -/
def deleteOldListings (now : Int) (db : List Listing) :
    List Listing × Nat :=
  (db.filter (fun l => !decide (l.createdAt < now - sixtyDaysMs)),
   (db.filter (fun l => decide (l.createdAt < now - sixtyDaysMs))).length)

/-- The notification-sweep selection filter, identical in both server
variants: `expirationDate: { $gte: now + 7 days, $lt: now + 8 days }`
(the legacy variant writes the upper bound as `sevenDaysLater + 24h`). -/
def expiringWindow (now : Int) (l : Listing) : Bool :=
  decide (now + 7 * dayMs ≤ l.expirationDate)
    && decide (l.expirationDate < now + 8 * dayMs)

/-- The listings a notification sweep selects from the store. -/
def selectExpiring (now : Int) (db : List Listing) : List Listing :=
  db.filter (expiringWindow now)

/-- `sendExpiryEmail` (`utils/email.js`): when the transporter is not
ready it warns and returns `false`; otherwise it awaits the transport
and converts success to `true` and a thrown transport error to `false`
via its own `try`/`catch`.  `transport` is the underlying
`sendMail`, which may throw (`Except.error`).  The result is wrapped in
`Except` to record that this function itself never throws. -/
def sendExpiryEmail (ready : Bool) (transport : Listing → Except String Unit)
    (l : Listing) : Except String Bool :=
  if ready then
    match transport l with
    | Except.ok _ => Except.ok true
    | Except.error _ => Except.ok false
  else Except.ok false

/-- The per-listing send loop of the notification sweep:
`for (const listing of listings) await sendExpiryEmail(listing)`.
Sends run sequentially and a thrown (uncaught) send would abort the
remainder of the loop, which the `Except` bind models. -/
def notifyLoop (send : Listing → Except String Bool) :
    List Listing → Except String (List (String × Bool))
  | [] => Except.ok []
  | l :: ls =>
    match send l with
    | Except.error e => Except.error e
    | Except.ok b =>
      match notifyLoop send ls with
      | Except.error e => Except.error e
      | Except.ok rest => Except.ok ((l.id, b) :: rest)

/-- `notifyExpiringListings` (nodemailer server variant): skip early when
the notifier is not ready, otherwise select the window and send to each
match in turn.  The result pairs each selected listing's id with its
send outcome. -/
def notifySweep (ready : Bool) (transport : Listing → Except String Unit)
    (now : Int) (db : List Listing) : Except String (List (String × Bool)) :=
  if ready then
    notifyLoop (sendExpiryEmail ready transport) (selectExpiring now db)
  else Except.ok []

/-- `parseInt(x) || d` on a query parameter: a missing or non-numeric
parameter (`NaN`, modelled as `none`) and the falsy `0` both fall back
to the default. -/
def parseIntOr (v : Option Int) (dflt : Int) : Int :=
  match v with
  | none => dflt
  | some n => if n = 0 then dflt else n

/-- `Math.max(1, parseInt(req.query.page) || 1)` -/
def clampPage (qp : Option Int) : Int :=
  max 1 (parseIntOr qp 1)

/-- `Math.min(100, Math.max(1, parseInt(req.query.limit) || 50))` -/
def clampLimit (ql : Option Int) : Int :=
  min 100 (max 1 (parseIntOr ql 50))

/-- `sort({ createdAt: -1 })`: newest first. -/
def byCreatedDesc (a b : Listing) : Prop :=
  b.createdAt ≤ a.createdAt

instance : DecidableRel byCreatedDesc :=
  fun a b => inferInstanceAs (Decidable (b.createdAt ≤ a.createdAt))

instance : IsTotal Listing byCreatedDesc :=
  ⟨fun a b => le_total b.createdAt a.createdAt⟩

instance : IsTrans Listing byCreatedDesc :=
  ⟨fun _ _ _ h1 h2 => le_trans h2 h1⟩

/-- The response of `GET /listings`. -/
structure ListPage where
  listings : List Listing
  total : Nat
  page : Int
  limit : Int
deriving DecidableEq, Repr

/-- `getListings` (`controllers/listingController.js`): clamp `page` and
`limit`, sort by `createdAt` descending, apply
`skip((page - 1) * limit).limit(limit)`, and also return
`countDocuments()`. -/
def getListings (db : List Listing) (qp ql : Option Int) : ListPage :=
  let page := clampPage qp
  let limit := clampLimit ql
  let skip := (page - 1) * limit
  { listings :=
      ((List.insertionSort byCreatedDesc db).drop skip.toNat).take limit.toNat
  , total := db.length
  , page := page
  , limit := limit }

deriving instance DecidableEq for Except

/-! ## Helper lemmas -/

/-- A key the creation schema does not declare is absent after
`stripUnknown`. -/
theorem getField_stripUnknown_eq_none (body : Body) (k : String)
    (hk : k ∉ createListingSchemaKeys) :
    getField (stripUnknown body) k = none := by
  unfold getField
  cases hfind : (stripUnknown body).find? (fun kv => kv.fst == k) with
  | none => rfl
  | some kv =>
    exfalso
    have hmem : kv ∈ stripUnknown body := List.mem_of_find?_eq_some hfind
    have hp := List.find?_some hfind
    unfold stripUnknown at hmem
    have hin : kv.fst ∈ createListingSchemaKeys := by
      have h2 := List.mem_filter.mp hmem
      simpa using h2.2
    exact hk (by rwa [eq_of_beq hp] at hin)

/-- Successful validation returns exactly the stripped body. -/
theorem validateCreate_ok (body v : Body)
    (h : validateCreate body = Except.ok v) : v = stripUnknown body := by
  unfold validateCreate at h
  by_cases hr : requiredOk (stripUnknown body) = true
  · simp only [hr, if_true] at h
    exact (Except.ok.inj h).symm
  · simp only [Bool.not_eq_true] at hr
    simp [hr] at h

/-! ## Claim theorems -/

/-- C1: for every creation input accepted by validation, the created
listing has `createdAt = now` and `expirationDate = now + 60 days`, so
`expirationDate - createdAt = 60 days` exactly (the model evaluates both
schema defaults at the same clock reading `now`). -/
theorem create_sets_sixty_day_expiry (now : Int) (newId : String)
    (body v : Body) (h : validateCreate body = Except.ok v) :
    (mongooseCreate now newId v).createdAt = now
    ∧ (mongooseCreate now newId v).expirationDate = now + sixtyDaysMs
    ∧ (mongooseCreate now newId v).expirationDate
        - (mongooseCreate now newId v).createdAt = sixtyDaysMs := by
  have hv : v = stripUnknown body := validateCreate_ok body v h
  subst hv
  have hc : getField (stripUnknown body) "createdAt" = none :=
    getField_stripUnknown_eq_none body _ (by decide)
  have he : getField (stripUnknown body) "expirationDate" = none :=
    getField_stripUnknown_eq_none body _ (by decide)
  refine ⟨?_, ?_, ?_⟩ <;> simp [mongooseCreate, hc, he]

/-- C1 witness: a concrete valid body, created at `now = 1000`. -/
theorem create_sets_sixty_day_expiry_witness :
    validateCreate
        [("name", JVal.jstr "Casa Verde"), ("email", JVal.jstr "owner@example.com")]
      = Except.ok
        [("name", JVal.jstr "Casa Verde"), ("email", JVal.jstr "owner@example.com")]
    ∧ (mongooseCreate 1000 "aabbccddeeff001122334455"
        [("name", JVal.jstr "Casa Verde"), ("email", JVal.jstr "owner@example.com")]).expirationDate
      - (mongooseCreate 1000 "aabbccddeeff001122334455"
        [("name", JVal.jstr "Casa Verde"), ("email", JVal.jstr "owner@example.com")]).createdAt
      = sixtyDaysMs :=
  ⟨by decide,
   (create_sets_sixty_day_expiry 1000 "aabbccddeeff001122334455"
      [("name", JVal.jstr "Casa Verde"), ("email", JVal.jstr "owner@example.com")]
      [("name", JVal.jstr "Casa Verde"), ("email", JVal.jstr "owner@example.com")]
      (by decide)).2.2⟩

/-- C9: whatever the raw request body contains, validation strips every
key outside the creation schema — in particular `createdAt` and
`expirationDate` — so the created document takes both schema defaults
and `expirationDate = createdAt + 60 days` holds even for a body that
tried to override the timestamps. -/
theorem creation_timestamps_cannot_be_overridden (now : Int) (newId : String)
    (body v : Body) (h : validateCreate body = Except.ok v) :
    v = stripUnknown body
    ∧ getField v "createdAt" = none
    ∧ getField v "expirationDate" = none
    ∧ (∀ kv ∈ v, kv.fst ∈ createListingSchemaKeys)
    ∧ (mongooseCreate now newId v).createdAt = now
    ∧ (mongooseCreate now newId v).expirationDate
        = (mongooseCreate now newId v).createdAt + sixtyDaysMs := by
  have hv : v = stripUnknown body := validateCreate_ok body v h
  subst hv
  have hc : getField (stripUnknown body) "createdAt" = none :=
    getField_stripUnknown_eq_none body _ (by decide)
  have he : getField (stripUnknown body) "expirationDate" = none :=
    getField_stripUnknown_eq_none body _ (by decide)
  refine ⟨rfl, hc, he, ?_, ?_, ?_⟩
  · intro kv hkv
    unfold stripUnknown at hkv
    have h2 := List.mem_filter.mp hkv
    simpa using h2.2
  · simp [mongooseCreate, hc]
  · simp [mongooseCreate, hc, he]

/-- C9 witness: a body that attempts to override both timestamps and to
smuggle an unknown field; after validation the created listing still has
`createdAt = 0` and `expirationDate = 60 days`. -/
theorem creation_timestamps_cannot_be_overridden_witness :
    validateCreate
        [("name", JVal.jstr "Casa"), ("email", JVal.jstr "a@b.c"),
         ("createdAt", JVal.jnum 123), ("expirationDate", JVal.jnum 456),
         ("isAdmin", JVal.jstr "yes")]
      = Except.ok [("name", JVal.jstr "Casa"), ("email", JVal.jstr "a@b.c")]
    ∧ (mongooseCreate 0 "aabbccddeeff001122334455"
          [("name", JVal.jstr "Casa"), ("email", JVal.jstr "a@b.c")]).createdAt = 0
    ∧ (mongooseCreate 0 "aabbccddeeff001122334455"
          [("name", JVal.jstr "Casa"), ("email", JVal.jstr "a@b.c")]).expirationDate
        = (mongooseCreate 0 "aabbccddeeff001122334455"
          [("name", JVal.jstr "Casa"), ("email", JVal.jstr "a@b.c")]).createdAt
          + sixtyDaysMs :=
  ⟨by decide,
   (creation_timestamps_cannot_be_overridden 0 "aabbccddeeff001122334455"
      [("name", JVal.jstr "Casa"), ("email", JVal.jstr "a@b.c"),
       ("createdAt", JVal.jnum 123), ("expirationDate", JVal.jnum 456),
       ("isAdmin", JVal.jstr "yes")]
      [("name", JVal.jstr "Casa"), ("email", JVal.jstr "a@b.c")]
      (by decide)).2.2.2.2.1,
   (creation_timestamps_cannot_be_overridden 0 "aabbccddeeff001122334455"
      [("name", JVal.jstr "Casa"), ("email", JVal.jstr "a@b.c"),
       ("createdAt", JVal.jnum 123), ("expirationDate", JVal.jnum 456),
       ("isAdmin", JVal.jstr "yes")]
      [("name", JVal.jstr "Casa"), ("email", JVal.jstr "a@b.c")]
      (by decide)).2.2.2.2.2⟩

/-- C8: `getById` on a malformed id yields `InvalidIdError` whatever the
store holds; on a well-formed but absent id it yields `NotFoundError`;
and for a malformed id the result does not depend on the store at all —
the id-format check runs before any lookup. -/
theorem getById_not_found_contract (db : List Listing) :
    getListingById db "not-an-id" = Except.error ApiError.invalidId
    ∧ ((∀ l ∈ db, l.id ≠ "000000000000000000000000") →
        getListingById db "000000000000000000000000"
          = Except.error ApiError.notFound)
    ∧ (∀ (db' : List Listing) (i : String), isValidObjectId i = false →
        getListingById db i = getListingById db' i) := by
  refine ⟨?_, ?_, ?_⟩
  · have hv : isValidObjectId "not-an-id" = false := by decide
    simp [getListingById, hv]
  · intro h
    have hv : isValidObjectId "000000000000000000000000" = true := by decide
    have hf : db.find? (fun l => l.id == "000000000000000000000000") = none := by
      rw [List.find?_eq_none]
      intro l hl
      simpa using h l hl
    simp [getListingById, hv, hf]
  · intro db' i hi
    simp [getListingById, hi]

/-- C8 witness: the two concrete probes of the claim against an empty
store, and store-independence of the malformed-id case against a store
that even holds a listing whose id is the malformed string. -/
theorem getById_not_found_contract_witness :
    getListingById [] "not-an-id" = Except.error ApiError.invalidId
    ∧ getListingById [] "000000000000000000000000"
        = Except.error ApiError.notFound
    ∧ getListingById
        [{ id := "not-an-id", name := "n", email := "e", address := "a",
           location := "l", keywords := [], createdAt := 0,
           expirationDate := 0 }] "not-an-id"
      = getListingById [] "not-an-id" :=
  ⟨(getById_not_found_contract []).1,
   (getById_not_found_contract []).2.1 (by intro l hl; cases hl),
   (getById_not_found_contract
      [{ id := "not-an-id", name := "n", email := "e", address := "a",
         location := "l", keywords := [], createdAt := 0,
         expirationDate := 0 }]).2.2 [] "not-an-id" (by decide)⟩

/-- C2 (amended): in the current (nodemailer) server variant `renew`
behaves exactly as claimed — `InvalidIdError` on a malformed id,
`NotFoundError` on an absent id, and on success the renewed record has
`expirationDate = now + 60 days` independent of its prior value, is
persisted in the returned store, and every other record is untouched.
In the legacy (SendGrid) server variant the malformed-id case instead
surfaces as the generic server error. -/
theorem renew_contract (now : Int) (db : List Listing) (id : String) :
    (isValidObjectId id = false →
        renewListing now db id = Except.error ApiError.invalidId
        ∧ renewListingLegacy now db id = Except.error ApiError.serverError)
    ∧ (isValidObjectId id = true →
        db.find? (fun l => l.id == id) = none →
        renewListing now db id = Except.error ApiError.notFound)
    ∧ (∀ (db' : List Listing) (l' : Listing),
        renewListing now db id = Except.ok (db', l') →
        l'.expirationDate = now + sixtyDaysMs
        ∧ l'.id = id
        ∧ l' ∈ db'
        ∧ ∀ x ∈ db', x.id ≠ id → x ∈ db) := by
  refine ⟨?_, ?_, ?_⟩
  · intro hv
    constructor <;> simp [renewListing, renewListingLegacy, hv]
  · intro hv hf
    simp [renewListing, hv, hf]
  · intro db' l' h
    by_cases hv : isValidObjectId id = true
    · rw [renewListing, if_pos hv] at h
      cases hfind : db.find? (fun l => l.id == id) with
      | none => rw [hfind] at h; cases h
      | some l =>
        rw [hfind] at h
        have hmem : l ∈ db := List.mem_of_find?_eq_some hfind
        have hlid0 := List.find?_some hfind
        have hlid : (l.id == id) = true := hlid0
        have hpair := Except.ok.inj h
        have hdb' : db' = db.map (fun x =>
            if x.id == id then { l with expirationDate := now + sixtyDaysMs }
            else x) := (congrArg Prod.fst hpair).symm
        have hl' : l' = { l with expirationDate := now + sixtyDaysMs } :=
          (congrArg Prod.snd hpair).symm
        subst hdb' hl'
        refine ⟨rfl, by simpa using eq_of_beq hlid, ?_, ?_⟩
        · exact List.mem_map.mpr ⟨l, hmem, by simp [hlid]⟩
        · intro x hx hxid
          rcases List.mem_map.mp hx with ⟨y, hy, hyx⟩
          by_cases hyid : (y.id == id) = true
          · rw [if_pos hyid] at hyx
            exfalso
            apply hxid
            rw [← hyx]
            simpa using eq_of_beq hlid
          · rw [if_neg hyid] at hyx
            exact hyx ▸ hy
    · rw [renewListing, if_neg hv] at h
      cases h

/-- C2 witness: all three branches at concrete inputs — malformed id,
absent id, and a successful renewal whose prior expiry `999` is
irrelevant to the new expiry `5 + sixtyDaysMs`. -/
theorem renew_contract_witness :
    renewListing 0 [] "not-an-id" = Except.error ApiError.invalidId
    ∧ renewListingLegacy 0 [] "not-an-id" = Except.error ApiError.serverError
    ∧ renewListing 0 [] "aabbccddeeff001122334455"
        = Except.error ApiError.notFound
    ∧ ({ id := "aabbccddeeff001122334455", name := "n", email := "e",
         address := "a", location := "l", keywords := [], createdAt := 0,
         expirationDate := 5184000005 } : Listing).expirationDate
        = 5 + sixtyDaysMs :=
  ⟨((renew_contract 0 [] "not-an-id").1 (by decide)).1,
   ((renew_contract 0 [] "not-an-id").1 (by decide)).2,
   (renew_contract 0 [] "aabbccddeeff001122334455").2.1 (by decide) (by decide),
   ((renew_contract 5
      [{ id := "aabbccddeeff001122334455", name := "n", email := "e",
         address := "a", location := "l", keywords := [], createdAt := 0,
         expirationDate := 999 }] "aabbccddeeff001122334455").2.2
      [{ id := "aabbccddeeff001122334455", name := "n", email := "e",
         address := "a", location := "l", keywords := [], createdAt := 0,
         expirationDate := 5184000005 }]
      { id := "aabbccddeeff001122334455", name := "n", email := "e",
        address := "a", location := "l", keywords := [], createdAt := 0,
        expirationDate := 5184000005 }
      (by decide)).1⟩

/-- C2 counterexample: the claim as stated fails on the legacy (SendGrid)
server variant of `renew`, which performs no id-format check — the
malformed id "not-an-id" produces the generic 500 server error of the
`catch` block, not `InvalidIdError`. -/
theorem renew_invalid_id_counterexample :
    renewListingLegacy 0 [] "not-an-id" = Except.error ApiError.serverError
    ∧ renewListingLegacy 0 [] "not-an-id"
        ≠ Except.error ApiError.invalidId := by
  constructor
  · decide
  · decide

/-- C3: one expiry sweep keeps a listing exactly when its
`expirationDate` is not strictly before `now` (so it deletes exactly the
strictly-expired ones), it only removes records (every survivor sits
unchanged, in order, in the original store), the deleted count accounts
for every removed record, and a second sweep at the same instant over the
surviving store deletes `0` additional records. -/
theorem expiry_sweep_exact_and_idempotent (now : Int) (db : List Listing) :
    (∀ l, l ∈ (deleteExpiredListings now db).1
        ↔ l ∈ db ∧ ¬ l.expirationDate < now)
    ∧ ((deleteExpiredListings now db).1).Sublist db
    ∧ (deleteExpiredListings now db).2
        + ((deleteExpiredListings now db).1).length = db.length
    ∧ deleteExpiredListings now (deleteExpiredListings now db).1
        = ((deleteExpiredListings now db).1, 0) := by
  refine ⟨?_, ?_, ?_, ?_⟩
  · intro l
    simp [deleteExpiredListings, List.mem_filter]
  · exact List.filter_sublist db
  · have h := List.length_eq_length_filter_add
      (l := db) (fun l => decide (l.expirationDate < now))
    simpa [deleteExpiredListings] using h.symm
  · simp only [deleteExpiredListings, List.filter_filter, Prod.mk.injEq]
    constructor
    · apply List.filter_congr
      intro a _
      simp
    · rw [List.length_eq_zero]
      apply List.filter_eq_nil_iff.mpr
      intro a _
      simp

/-- C10: the standalone cleanup script keeps a listing exactly when its
`createdAt` is at most 60 days old — it deletes exactly the listings
created strictly more than 60 days ago, and its predicate never consults
`expirationDate`: a listing with any future `expirationDate` is still
deleted once `createdAt < now - 60 days`, although the expiry sweep
would keep it. -/
theorem cleanup_script_selects_on_createdAt (now : Int) (db : List Listing) :
    (∀ l, l ∈ (deleteOldListings now db).1
        ↔ l ∈ db ∧ ¬ l.createdAt < now - sixtyDaysMs)
    ∧ ((deleteOldListings now db).1).Sublist db
    ∧ (∀ l, l ∈ db → l.createdAt < now - sixtyDaysMs →
        l ∉ (deleteOldListings now db).1)
    ∧ (∀ l, l ∈ db → l.createdAt < now - sixtyDaysMs →
        now ≤ l.expirationDate →
        l ∉ (deleteOldListings now db).1
        ∧ l ∈ (deleteExpiredListings now db).1) := by
  have hmem : ∀ l, l ∈ (deleteOldListings now db).1
      ↔ l ∈ db ∧ ¬ l.createdAt < now - sixtyDaysMs := by
    intro l
    simp [deleteOldListings, List.mem_filter]
  refine ⟨hmem, List.filter_sublist db, ?_, ?_⟩
  · intro l hl hold hmem'
    exact ((hmem l).mp hmem').2 hold
  · intro l hl hold hfuture
    refine ⟨fun hmem' => ((hmem l).mp hmem').2 hold, ?_⟩
    simp only [deleteExpiredListings, List.mem_filter]
    exact ⟨hl, by simpa using not_lt_of_ge hfuture⟩

/-- C10 witness: at `now = 0`, a listing created 61 days ago but renewed
(expiry 59 days in the future) is deleted by the cleanup script yet kept
by the expiry sweep. -/
theorem cleanup_script_selects_on_createdAt_witness :
    ({ id := "aabbccddeeff001122334455", name := "n", email := "e",
       address := "a", location := "l", keywords := [],
       createdAt := -5270400000, expirationDate := 5097600000 } : Listing)
        ∉ (deleteOldListings 0
            [{ id := "aabbccddeeff001122334455", name := "n", email := "e",
               address := "a", location := "l", keywords := [],
               createdAt := -5270400000, expirationDate := 5097600000 }]).1
    ∧ ({ id := "aabbccddeeff001122334455", name := "n", email := "e",
         address := "a", location := "l", keywords := [],
         createdAt := -5270400000, expirationDate := 5097600000 } : Listing)
        ∈ (deleteExpiredListings 0
            [{ id := "aabbccddeeff001122334455", name := "n", email := "e",
               address := "a", location := "l", keywords := [],
               createdAt := -5270400000, expirationDate := 5097600000 }]).1 :=
  (cleanup_script_selects_on_createdAt 0
      [{ id := "aabbccddeeff001122334455", name := "n", email := "e",
         address := "a", location := "l", keywords := [],
         createdAt := -5270400000, expirationDate := 5097600000 }]).2.2.2
    { id := "aabbccddeeff001122334455", name := "n", email := "e",
      address := "a", location := "l", keywords := [],
      createdAt := -5270400000, expirationDate := 5097600000 }
    (by decide) (by decide) (by decide)

/-- C4: the notification sweep selects a listing if and only if it is in
the store and its `expirationDate` lies in the half-open window
`[now + 7 days, now + 8 days)`; concretely, at `now = 0` an expiry 7.5
days out is selected while 6.9 and 8.1 days out are not. -/
theorem notification_window_correct (now : Int) (db : List Listing) :
    (∀ l, l ∈ selectExpiring now db
        ↔ l ∈ db ∧ now + 7 * dayMs ≤ l.expirationDate
            ∧ l.expirationDate < now + 8 * dayMs)
    ∧ expiringWindow 0
        { id := "a", name := "n", email := "e", address := "a",
          location := "l", keywords := [], createdAt := 0,
          expirationDate := 648000000 } = true
    ∧ expiringWindow 0
        { id := "a", name := "n", email := "e", address := "a",
          location := "l", keywords := [], createdAt := 0,
          expirationDate := 596160000 } = false
    ∧ expiringWindow 0
        { id := "a", name := "n", email := "e", address := "a",
          location := "l", keywords := [], createdAt := 0,
          expirationDate := 699840000 } = false := by
  refine ⟨?_, by decide, by decide, by decide⟩
  intro l
  simp [selectExpiring, expiringWindow, List.mem_filter, and_assoc]

/-- The send loop never aborts: with a ready transporter each listing's
send resolves to its own transport outcome, `sendExpiryEmail` converting
a thrown transport failure into `false` instead of rethrowing. -/
theorem notifyLoop_sendExpiryEmail_ok
    (transport : Listing → Except String Unit) (ls : List Listing) :
    notifyLoop (sendExpiryEmail true transport) ls
      = Except.ok (ls.map (fun l =>
          (l.id, match transport l with
                 | Except.ok _ => true
                 | Except.error _ => false))) := by
  induction ls with
  | nil => rfl
  | cons l ls ih =>
    cases htl : transport l with
    | ok u => simp [notifyLoop, sendExpiryEmail, htl, ih]
    | error e => simp [notifyLoop, sendExpiryEmail, htl, ih]

/-- C7: a notification sweep with a ready notifier completes without
error and sends to every selected listing independently and in order —
each listing's recorded outcome is exactly its own transport result, so
a transport failure for one listing neither aborts the sweep nor
affects any other listing: every selected listing whose own send
succeeds is recorded as notified. -/
theorem notify_failure_isolation (transport : Listing → Except String Unit)
    (now : Int) (db : List Listing) :
    notifySweep true transport now db
      = Except.ok ((selectExpiring now db).map (fun l =>
          (l.id, match transport l with
                 | Except.ok _ => true
                 | Except.error _ => false)))
    ∧ ∀ b ∈ selectExpiring now db, transport b = Except.ok () →
        (b.id, true) ∈ ((selectExpiring now db).map (fun l =>
          (l.id, match transport l with
                 | Except.ok _ => true
                 | Except.error _ => false))) := by
  constructor
  · simp [notifySweep, notifyLoop_sendExpiryEmail_ok]
  · intro b hb hok
    exact List.mem_map.mpr ⟨b, hb, by simp [hok]⟩

/-- C7 witness: two listings in the notification window at `now = 0`;
the transport throws for the first and succeeds for the second, yet the
sweep returns without error, and the second listing is notified. -/
theorem notify_failure_isolation_witness :
    notifySweep true
        (fun l => if l.id == "000000000000000000000001"
                  then Except.error "send failure" else Except.ok ())
        0
        [{ id := "000000000000000000000001", name := "A", email := "a@x.y",
           address := "", location := "", keywords := [], createdAt := 0,
           expirationDate := 648000000 },
         { id := "000000000000000000000002", name := "B", email := "b@x.y",
           address := "", location := "", keywords := [], createdAt := 0,
           expirationDate := 648000000 }]
      = Except.ok [("000000000000000000000001", false),
                   ("000000000000000000000002", true)]
    ∧ ("000000000000000000000002", true)
        ∈ [("000000000000000000000001", false),
           ("000000000000000000000002", true)] := by
  constructor
  · rw [(notify_failure_isolation
        (fun l => if l.id == "000000000000000000000001"
                  then Except.error "send failure" else Except.ok ())
        0
        [{ id := "000000000000000000000001", name := "A", email := "a@x.y",
           address := "", location := "", keywords := [], createdAt := 0,
           expirationDate := 648000000 },
         { id := "000000000000000000000002", name := "B", email := "b@x.y",
           address := "", location := "", keywords := [], createdAt := 0,
           expirationDate := 648000000 }]).1]
    decide
  · have h := (notify_failure_isolation
        (fun l => if l.id == "000000000000000000000001"
                  then Except.error "send failure" else Except.ok ())
        0
        [{ id := "000000000000000000000001", name := "A", email := "a@x.y",
           address := "", location := "", keywords := [], createdAt := 0,
           expirationDate := 648000000 },
         { id := "000000000000000000000002", name := "B", email := "b@x.y",
           address := "", location := "", keywords := [], createdAt := 0,
           expirationDate := 648000000 }]).2
        { id := "000000000000000000000002", name := "B", email := "b@x.y",
          address := "", location := "", keywords := [], createdAt := 0,
          expirationDate := 648000000 }
        (by decide) (by decide)
    exact h

/-- C6: `list` silently clamps: `list(page=0, limit=500)` is literally the
same response as `list(page=1, limit=100)`; for every input the effective
page is at least 1 and the effective limit is in `[1, 100]`; the window
is `[(page-1)*limit, page*limit)` over the listings sorted by `createdAt`
descending (a permutation of the store), and the total count is the
store's size. -/
theorem pagination_clamped (db : List Listing) (qp ql : Option Int) :
    getListings db (some 0) (some 500) = getListings db (some 1) (some 100)
    ∧ 1 ≤ (getListings db qp ql).page
    ∧ 1 ≤ (getListings db qp ql).limit
    ∧ (getListings db qp ql).limit ≤ 100
    ∧ (getListings db qp ql).total = db.length
    ∧ (getListings db qp ql).listings
        = ((List.insertionSort byCreatedDesc db).drop
            (((getListings db qp ql).page - 1)
              * (getListings db qp ql).limit).toNat).take
            (getListings db qp ql).limit.toNat
    ∧ List.Sorted byCreatedDesc (List.insertionSort byCreatedDesc db)
    ∧ (List.insertionSort byCreatedDesc db).Perm db := by
  refine ⟨?_, ?_, ?_, ?_, rfl, rfl,
    List.sorted_insertionSort byCreatedDesc db,
    List.perm_insertionSort byCreatedDesc db⟩
  · simp [getListings, clampPage, clampLimit, parseIntOr]
  · simp only [getListings, clampPage]
    exact le_max_left 1 _
  · simp only [getListings, clampLimit]
    exact le_min (by norm_num) (le_max_left 1 _)
  · simp only [getListings, clampLimit]
    exact min_le_left 100 _

/-! ## Search: regex escaping and literal matching

`searchListings` builds `new RegExp(escapedQuery, 'i')` from
`q.replace(/[.*+?^$\x7b\x7d()|[\]\\]/g, '\\$&')` and matches it against
`name`, `address`, `location` and each `keywords` element under `$or`.
The regex engine is modelled up to its lexer plus the semantics of
all-literal patterns (a case-insensitive substring search); the main
theorem shows the escaping confines every query to that fragment, which
is exactly what the escaping exists to do. -/

/-- The character class of the escaping `replace` in `searchListings`:
`.` `*` `+` `?` `^` `$` `\x7b` `\x7d` `(` `)` `|` `[` `]` `\`. -/
def metachars : List Char :=
  ['.', '*', '+', '?', '^', '$', '\x7b', '\x7d', '(', ')', '|', '[', ']', '\\']

def isMeta (c : Char) : Bool := metachars.contains c

/-- `'$&'` replacement: a metacharacter becomes backslash-metacharacter,
any other character is kept as is. -/
def escapeChar (c : Char) : List Char :=
  if isMeta c then ['\\', c] else [c]

/-- `q.replace(/[.*+?^$\x7b\x7d()|[\]\\]/g, '\\$&')`, character by
character. -/
def escapeRegex : List Char → List Char
  | [] => []
  | c :: cs => escapeChar c ++ escapeRegex cs

/-- One token of a JavaScript regular expression, as far as the escaped
patterns can reach: an escaped (hence literal) character, or one of the
metacharacters of the escaping class. -/
inductive RTok where
  | lit (c : Char)
  | dot
  | star
  | plus
  | quest
  | caret
  | dollar
  | lbrace
  | rbrace
  | lparen
  | rparen
  | alt
  | lbrack
  | rbrack
deriving DecidableEq, Repr

/-- Classify an unescaped character. -/
def metaTok (c : Char) : RTok :=
  if c = '.' then RTok.dot
  else if c = '*' then RTok.star
  else if c = '+' then RTok.plus
  else if c = '?' then RTok.quest
  else if c = '^' then RTok.caret
  else if c = '$' then RTok.dollar
  else if c = '\x7b' then RTok.lbrace
  else if c = '\x7d' then RTok.rbrace
  else if c = '(' then RTok.lparen
  else if c = ')' then RTok.rparen
  else if c = '|' then RTok.alt
  else if c = '[' then RTok.lbrack
  else if c = ']' then RTok.rbrack
  else RTok.lit c

/-- The lexer of the `RegExp` constructor on this token language: a
backslash makes the next character literal, a dangling final backslash
is a syntax error (the constructor throws — `none`). -/
def lexRegex : List Char → Option (List RTok)
  | [] => some []
  | c :: rest =>
    if c = '\\' then
      match rest with
      | [] => none
      | d :: rest2 => (lexRegex rest2).map (fun ts => RTok.lit d :: ts)
    else
      (lexRegex rest).map (fun ts => metaTok c :: ts)

/-- A token list that is entirely literal characters, and those
characters. -/
def allLits? : List RTok → Option (List Char)
  | [] => some []
  | RTok.lit c :: ts => (allLits? ts).map (fun cs => c :: cs)
  | _ :: _ => none

/-- Case-insensitive character comparison — the `'i'` regex flag. -/
def lowerEq (a b : Char) : Bool := a.toLower == b.toLower

/-- Does `p` match case-insensitively at the very start of `s`? -/
def ciHere : List Char → List Char → Bool
  | [], _ => true
  | _ :: _, [] => false
  | a :: as, b :: bs => lowerEq a b && ciHere as bs

/-- Case-insensitive substring search: the semantics of an all-literal
regular expression with the `'i'` flag. -/
def ciSubstr (p : List Char) : List Char → Bool
  | [] => ciHere p []
  | b :: bs => ciHere p (b :: bs) || ciSubstr p bs

/-- The `$or` of `searchListings`: the pattern matches the listing's
`name`, `address` or `location`, or some element of `keywords` (a regex
on a mongo array field matches when any element matches). -/
def listingMatches (pat : List Char) (l : Listing) : Bool :=
  ciSubstr pat l.name.data || ciSubstr pat l.address.data
    || ciSubstr pat l.location.data
    || l.keywords.any (fun k => ciSubstr pat k.data)

/-- `searchListings` (`controllers/listingController.js`): an empty query
short-circuits to an empty result; otherwise the escaped query is
compiled (`none` from the lexer models the `RegExp` constructor
throwing) and matched with `limit(100)`.  Patterns outside the
all-literal fragment are beyond the model (second error branch);
`lex_escape` below proves the escaping keeps every query inside the
fragment, so that branch is unreachable from this entry point. -/
def searchListings (db : List Listing) (q : String) :
    Except String (List Listing) :=
  if q = "" then Except.ok []
  else
    match lexRegex (escapeRegex q.data) with
    | none => Except.error "SyntaxError: invalid regular expression"
    | some toks =>
      match allLits? toks with
      | some pat => Except.ok ((db.filter (listingMatches pat)).take 100)
      | none => Except.error "metacharacter semantics not modelled"

/-- An unescaped non-metacharacter lexes as itself. -/
theorem metaTok_eq_lit (c : Char) (h : isMeta c = false) :
    metaTok c = RTok.lit c := by
  have hmem : c ∉ metachars := by simpa [isMeta] using h
  simp only [metachars, List.mem_cons, List.not_mem_nil, or_false,
    not_or] at hmem
  obtain ⟨h1, h2, h3, h4, h5, h6, h7, h8, h9, h10, h11, h12, h13, h14⟩ := hmem
  simp [metaTok, h1, h2, h3, h4, h5, h6, h7, h8, h9, h10, h11, h12, h13]

/-- The central escaping lemma: the escaped form of any query lexes
successfully (the `RegExp` constructor never throws on it) and consists
purely of literal tokens — one per original character. -/
theorem lex_escape (cs : List Char) :
    lexRegex (escapeRegex cs) = some (cs.map RTok.lit) := by
  induction cs with
  | nil => rfl
  | cons c cs ih =>
    by_cases hm : isMeta c = true
    · simp [escapeRegex, escapeChar, hm, lexRegex, ih]
    · have hm' : isMeta c = false := by simpa using hm
      have hne : ¬ c = '\\' := by
        intro e
        subst e
        exact absurd hm' (by decide)
      simp only [escapeRegex, escapeChar, hm', if_false,
        Bool.false_eq_true, List.cons_append, List.nil_append]
      rw [lexRegex.eq_def]
      simp only [if_neg hne, ih, metaTok_eq_lit c hm']
      rfl

/-- A purely-literal token list decodes back to its characters. -/
theorem allLits_map_lit (cs : List Char) :
    allLits? (cs.map RTok.lit) = some cs := by
  induction cs with
  | nil => rfl
  | cons c cs ih => simp [allLits?, ih]

/-- `ciHere` is a case-insensitive match at the start: the lowercased
haystack begins with the lowercased needle. -/
theorem ciHere_iff (p s : List Char) :
    ciHere p s = true
      ↔ ∃ r, s.map Char.toLower = p.map Char.toLower ++ r := by
  induction p generalizing s with
  | nil =>
    simp [ciHere]
  | cons a as ih =>
    cases s with
    | nil =>
      simp only [ciHere, Bool.false_eq_true, false_iff, List.map_nil,
        List.map_cons, List.cons_append, not_exists]
      intro r hr
      exact List.noConfusion hr
    | cons b bs =>
      simp only [ciHere, Bool.and_eq_true, lowerEq, beq_iff_eq,
        List.map_cons, List.cons_append, ih]
      constructor
      · rintro ⟨hab, r, hr⟩
        exact ⟨r, by rw [hr, hab]⟩
      · rintro ⟨r, hr⟩
        have h1 : b.toLower = a.toLower := (List.cons.inj hr).1
        exact ⟨h1.symm, r, (List.cons.inj hr).2⟩

/-- `ciSubstr` is exactly case-insensitive literal substring
containment: the lowercased needle occurs contiguously inside the
lowercased haystack. -/
theorem ciSubstr_iff (p s : List Char) :
    ciSubstr p s = true
      ↔ ∃ l r, s.map Char.toLower = l ++ p.map Char.toLower ++ r := by
  induction s with
  | nil =>
    simp only [ciSubstr, ciHere_iff, List.map_nil]
    constructor
    · rintro ⟨r, hr⟩
      exact ⟨[], r, by simpa using hr⟩
    · rintro ⟨l, r, hr⟩
      rcases List.append_eq_nil.mp (hr.symm) with ⟨hlp, hr0⟩
      rcases List.append_eq_nil.mp hlp with ⟨hl0, hp0⟩
      exact ⟨r, by rw [hp0]; simpa using hr0.symm⟩
  | cons b bs ih =>
    simp only [ciSubstr, Bool.or_eq_true, ciHere_iff, ih, List.map_cons]
    constructor
    · rintro (⟨r, hr⟩ | ⟨l, r, hr⟩)
      · exact ⟨[], r, by simpa using hr⟩
      · exact ⟨b.toLower :: l, r, by simp [hr]⟩
    · rintro ⟨l, r, hr⟩
      cases l with
      | nil =>
        left
        exact ⟨r, by simpa using hr⟩
      | cons x l =>
        right
        refine ⟨l, r, ?_⟩
        have hr' : b.toLower :: bs.map Char.toLower
            = x :: (l ++ (p.map Char.toLower ++ r)) := by
          simpa [List.append_assoc] using hr
        have h2 := (List.cons.inj hr').2
        rw [h2, List.append_assoc]

/-- C5: an empty query returns an empty result set without error; for a
non-empty query the search returns — without throwing — exactly the
first 100 listings matched by the OR of the four fields; the escaped
query always lexes to a purely-literal pattern (so the `RegExp`
constructor cannot throw and no metacharacter keeps its pattern
meaning); the per-listing predicate is the OR over `name`, `address`,
`location` and the elements of `keywords`; and the matcher is exactly
case-insensitive literal substring containment. -/
theorem search_escapes_and_matches_literally (db : List Listing) (q : String) :
    (q = "" → searchListings db q = Except.ok [])
    ∧ (q ≠ "" → searchListings db q
        = Except.ok ((db.filter (listingMatches q.data)).take 100))
    ∧ lexRegex (escapeRegex q.data) = some (q.data.map RTok.lit)
    ∧ (∀ l : Listing, listingMatches q.data l = true
        ↔ ciSubstr q.data l.name.data = true
          ∨ ciSubstr q.data l.address.data = true
          ∨ ciSubstr q.data l.location.data = true
          ∨ ∃ k ∈ l.keywords, ciSubstr q.data k.data = true)
    ∧ (∀ pa sa : List Char, ciSubstr pa sa = true
        ↔ ∃ lpre rpost, sa.map Char.toLower
            = lpre ++ pa.map Char.toLower ++ rpost) := by
  refine ⟨?_, ?_, lex_escape q.data, ?_, ciSubstr_iff⟩
  · intro h
    simp [searchListings, h]
  · intro h
    rw [searchListings, if_neg h, lex_escape q.data]
    simp [allLits_map_lit]
  · intro l
    simp [listingMatches, List.any_eq_true, or_assoc]

/-- C5 witness: the literal query `"3BR (updated)"` — full of regex
metacharacters — is non-empty, and the search finds exactly the listing
whose address contains that exact substring, without error. -/
theorem search_escapes_and_matches_literally_witness :
    ("3BR (updated)" : String) ≠ ""
    ∧ searchListings
        [{ id := "aabbccddeeff001122334455", name := "Smith House",
           email := "o@x.y", address := "12 Oak Ave, 3BR (updated) wing",
           location := "Springfield", keywords := ["beach"], createdAt := 0,
           expirationDate := 0 },
         { id := "aabbccddeeff001122334466", name := "Plain House",
           email := "p@x.y", address := "9 Elm St", location := "Shelbyville",
           keywords := [], createdAt := 0, expirationDate := 0 }]
        "3BR (updated)"
      = Except.ok
        [{ id := "aabbccddeeff001122334455", name := "Smith House",
           email := "o@x.y", address := "12 Oak Ave, 3BR (updated) wing",
           location := "Springfield", keywords := ["beach"], createdAt := 0,
           expirationDate := 0 }] := by
  constructor
  · decide
  · rw [(search_escapes_and_matches_literally
        [{ id := "aabbccddeeff001122334455", name := "Smith House",
           email := "o@x.y", address := "12 Oak Ave, 3BR (updated) wing",
           location := "Springfield", keywords := ["beach"], createdAt := 0,
           expirationDate := 0 },
         { id := "aabbccddeeff001122334466", name := "Plain House",
           email := "p@x.y", address := "9 Elm St", location := "Shelbyville",
           keywords := [], createdAt := 0, expirationDate := 0 }]
        "3BR (updated)").2.1 (by decide)]
    decide
